import Mathlib

/-!
Verification of the real-time voice gateway repository.

This file gives a shallow embedding, in Lean 4, of the parts of the
repository that the frozen claims are about:

* `twilio_integration/audio.py` — the G.711 mu-law codec and the linear
  resampler.  Byte strings are modelled as `List Nat` (each entry a byte
  value), signed 16-bit samples as `Int`.  Python float arithmetic inside
  the resampler is modelled by exact rational arithmetic (`Rat`); for the
  properties proved here (output lengths, identity, the early returns and
  the struct.error raise on malformed buffers) the two agree on the rate
  pairs named by the claims.  The whole-buffer struct.unpack of the
  resampler demands an exact-size buffer and raises struct.error otherwise,
  so `resample_pcm16` returns `Except`, with that raise as its error value.
* `providers/openai_rt.py` — the receive loop of `OpenAIRealtimeSession`
  as a step function on the session accumulator state, and the send
  methods as functions returning the list of wire messages written.
* `providers/elevenlabs.py` — the receive loop of `ElevenLabsSession`
  as a step function on the session state, and its send methods.
* `providers/__init__.py` and `twilio_integration/webhooks.py` — the
  provider registry lookup and the setup phase of the Twilio
  media-stream WebSocket handler.

Inbound wire messages are modelled as records holding exactly the JSON
fields the code reads; `Option` distinguishes a present field from an
absent one (matching `dict.get` with a default).  Base64 payloads are
carried undecoded: the code only tests them for emptiness before
decoding, and decoding is a bijection on valid payloads, so no claim
depends on the decoded bytes.
-/

/-! ## Byte and sample packing (struct.pack / struct.unpack with format <h) -/

/-- Two-byte little-endian encoding of a signed 16-bit sample, as struct.pack
with format <h produces for an in-range value (the value is reduced mod 2^16
and split into low and high byte). -/
def pack16 (v : Int) : List Nat :=
  [(v % 65536).toNat % 256, (v % 65536).toNat / 256]

/-- Reading of an unsigned 16-bit value as a signed one, as struct.unpack
with format <h does. -/
def toSigned16 (u : Nat) : Int :=
  if u < 32768 then (u : Int) else (u : Int) - 65536

/-- Successive little-endian int16 reads: pairs of bytes become signed
samples.  This models the n = len // 2 struct.unpack_from loop of
pcm16_to_mulaw (which never touches a trailing odd byte) and the payload of
the whole-buffer struct.unpack in resample_pcm16, where it is reached only
after the exact-size check. -/
def unpackPCM16 : List Nat → List Int
  | b0 :: b1 :: rest => toSigned16 (b0 + 256 * b1) :: unpackPCM16 rest
  | _ => []

/-- struct.pack of a list of int16 samples into little-endian bytes. -/
def packPCM16 : List Int → List Nat
  | [] => []
  | v :: rest => pack16 v ++ packPCM16 rest

/-- Python int() applied to a (modelled) float: truncation toward zero. -/
def pyTrunc (q : ℚ) : Int :=
  if 0 ≤ q then ⌊q⌋ else ⌈q⌉

/-! ## mu-law codec (twilio_integration/audio.py, _init_tables) -/

/-- Decode of one mu-law byte, the formula that fills _mulaw_decode_table:
for a table index i in [0,256) the code takes b = ~i & 0xFF (that is 255 - i),
splits sign, exponent and mantissa fields, and rebuilds the biased sample. -/
def muLawDecode (b : Nat) : Int :=
  let c := 255 - b
  let sign := c &&& 0x80
  let exponent := (c >>> 4) &&& 0x07
  let mantissa := c &&& 0x0F
  let sample : Int := (((mantissa <<< 3) + 132) <<< exponent : Nat) - 132
  if sign ≠ 0 then -sample else sample

/-- The exponent scan of _init_tables: starting at exponent 7 with mask
0x4000, eight probes, stopping at the first set bit, decrementing otherwise
(reaching -1 when no probed bit is set). -/
def scanExponent (sample : Nat) : Int :=
  go sample 7 0x4000 8
where
  go (sample : Nat) (e : Int) (mask fuel : Nat) : Int :=
    match fuel with
    | 0 => e
    | fuel' + 1 =>
      if sample &&& mask ≠ 0 then e else go sample (e - 1) (mask / 2) fuel'

/-- Encode of one int16 sample, the formula that fills _mulaw_encode_table:
sign extraction, saturation at 32635, bias by 132, exponent scan, mantissa
extraction, and final complement ~x & 0xFF (written 255 - x, the assembled
x being at most 255). -/
def muLawEncode (s : Int) : Nat :=
  let sign : Nat := if s < 0 then 0x80 else 0
  let mag0 : Nat := if s < 0 then (-s).toNat else s.toNat
  let mag1 : Nat := if mag0 > 32635 then 32635 else mag0
  let mag : Nat := mag1 + 132
  let exponent : Nat := (max 0 (scanExponent mag)).toNat
  let mantissa : Nat := (mag >>> (exponent + 3)) &&& 0x0F
  255 - (sign ||| (exponent <<< 4) ||| mantissa)

/-- mulaw_to_pcm16: each mu-law byte is looked up in the decode table and the
16-bit result written little-endian. -/
def mulaw_to_pcm16 : List Nat → List Nat
  | [] => []
  | b :: rest => pack16 (muLawDecode b) ++ mulaw_to_pcm16 rest

/-- pcm16_to_mulaw: n = len // 2 samples are read little-endian and each is
looked up in the encode table (indexed by sample + 32768); a trailing odd
byte is dropped by the n = len // 2 computation. -/
def pcm16_to_mulaw : List Nat → List Nat
  | b0 :: b1 :: rest => muLawEncode (toSigned16 (b0 + 256 * b1)) :: pcm16_to_mulaw rest
  | _ => []

/-! ## Linear resampler (twilio_integration/audio.py, resample_pcm16) -/

/-- List indexing with default 0, for samples[idx] under the bound guards of
the resampler loop (all reachable accesses are in range). -/
def sampleAt (l : List Int) (i : Nat) : Int := l.getD i 0

/-- resample_pcm16: identity when the rates are equal, early return when no
full sample is present.  Otherwise the samples are read with a whole-buffer
struct.unpack, which demands that the buffer length equal 2 * n exactly, so
an odd-length buffer raises struct.error on this path — modelled as an
error value.  On an exact-size buffer: linear interpolation at ratio
from_rate / to_rate with output length int(n_samples / ratio), each output
value clamped to the int16 range and truncated toward zero.  Python float
arithmetic is modelled by exact rationals. -/
def resample_pcm16 (data : List Nat) (from_rate to_rate : Nat) :
    Except String (List Nat) :=
  if from_rate = to_rate then .ok data
  else
    let n := data.length / 2
    if n = 0 then .ok data
    else if data.length ≠ 2 * n then .error "struct.error"
    else
      let samples := unpackPCM16 data
      let out_len := (pyTrunc ((n : ℚ) / ((from_rate : ℚ) / (to_rate : ℚ)))).toNat
      .ok (packPCM16 ((List.range out_len).map (fun (i : Nat) =>
        let src_idx : ℚ := (i : ℚ) * ((from_rate : ℚ) / (to_rate : ℚ))
        let idx := (pyTrunc src_idx).toNat
        let frac : ℚ := src_idx - (idx : ℚ)
        let val : ℚ :=
          if idx + 1 < n then
            (sampleAt samples idx : ℚ) * (1 - frac) + (sampleAt samples (idx + 1) : ℚ) * frac
          else if idx < n then (sampleAt samples idx : ℚ) else 0
        pyTrunc (max (-32768) (min 32767 val)))))

/-! ## Canonical provider events (providers/base.py, ProviderEvent) -/

/-- ProviderEvent: the tagged union yielded by the adapter receive loops.
Audio payloads are carried as their undecoded base64 text (see the header
note); tool arguments as a parsed flat JSON object (list of key/value
pairs). -/
inductive ProviderEvent
  | audio (data : String)
  | transcriptUser (text : String)
  | transcriptAgent (text : String)
  | toolCall (tool_name : Option String) (tool_args : List (String × String))
      (tool_id : Option String)
  | turnComplete
  | interrupted
  | error (text : String)
deriving DecidableEq

/-! ## Minimal JSON object parsing

Models json.loads restricted to flat objects with string keys and string
values and no escapes or whitespace — the shape of every tool-call argument
payload appearing in the claims.  A parse failure yields none, which the
adapter turns into the empty object, exactly as its except branch does. -/

/-- Parse a double-quoted string literal without escapes, returning the
string and the remaining characters. -/
def parseStringLit : List Char → Option (String × List Char)
  | c :: rest => if c = '"' then parseStringLit.go rest "" else none
  | [] => none
where
  go : List Char → String → Option (String × List Char)
  | [], _ => none
  | c :: rest, acc => if c = '"' then some (acc, rest) else go rest (acc.push c)

/-- Parse the members of a flat JSON object after the opening brace, up to
and including the closing brace, which must end the input. -/
def jsonMembers : Nat → List Char → List (String × String) →
    Option (List (String × String))
  | 0, _, _ => none
  | fuel + 1, cs, acc =>
    match parseStringLit cs with
    | none => none
    | some (k, cs1) =>
      match cs1 with
      | ':' :: cs2 =>
        match parseStringLit cs2 with
        | none => none
        | some (v, cs3) =>
          match cs3 with
          | c :: cs4 =>
            if c = ',' then jsonMembers fuel cs4 (acc ++ [(k, v)])
            else if c = Char.ofNat 125 then
              (if cs4 = [] then some (acc ++ [(k, v)]) else none)
            else none
          | [] => none
      | _ => none

/-- Parse a flat JSON object. -/
def jsonParseSimple (s : String) : Option (List (String × String)) :=
  match s.data with
  | c :: rest =>
    if c = Char.ofNat 123 then
      match rest with
      | c2 :: rest2 =>
        if c2 = Char.ofNat 125 then (if rest2 = [] then some [] else none)
        else jsonMembers rest.length rest []
      | [] => none
    else none
  | [] => none

/-- The argument parse of the done handler: json.loads(args_str) if args_str
else \x7b\x7d, with a decode error collapsing to the empty object. -/
def parseToolArgs (args_str : String) : List (String × String) :=
  if args_str = "" then [] else (jsonParseSimple args_str).getD []

/-! ## OpenAI realtime session (providers/openai_rt.py, OpenAIRealtimeSession)

One inbound wire message, modelled by the JSON fields the receive loop
reads.  An Option field is none exactly when the corresponding key is
absent (so dict.get falls back to its default). -/

structure OAIItem where
  itemType : Option String := none
  name : Option String := none
  call_id : Option String := none
  id : Option String := none
deriving DecidableEq

structure OAIMsg where
  type : String
  delta : Option String := none
  transcript : Option String := none
  argumentsField : Option String := none
  nameField : Option String := none
  callIdField : Option String := none
  item : Option OAIItem := none
  responseStatus : Option String := none
  errorMessage : Option String := none
deriving DecidableEq

/-- The mutable state of OpenAIRealtimeSession: the closed flag, the
in-flight function-call accumulator, and the in-response flag. -/
structure OAIState where
  closed : Bool
  current_fc_name : Option String
  current_fc_args : String
  current_fc_call_id : Option String
  current_fc_item_id : Option String
  in_response : Bool
deriving DecidableEq

def oaiInit : OAIState := ⟨false, none, "", none, none, false⟩

/-- The branches of the receive dispatch of OpenAIRealtimeSession, one per
handled message type. -/
inductive OAICase
  | sessionLifecycle
  | audioDelta
  | transcriptDelta
  | transcriptionCompleted
  | transcriptionDelta
  | fcDelta
  | fcDone
  | itemAdded
  | responseCreated
  | responseDone
  | speechStarted
  | speechStopped
  | errorCase
  | rateLimits
  | other
deriving DecidableEq

/-- The dispatch of OpenAIRealtimeSession.receive on the type field, in
source order (the type strings are pairwise distinct, so the chain picks
the unique matching branch). -/
def oaiDispatch (t : String) : OAICase :=
  if t = "session.created" ∨ t = "session.updated" then .sessionLifecycle
  else if t = "response.output_audio.delta" then .audioDelta
  else if t = "response.output_audio_transcript.delta" then .transcriptDelta
  else if t = "conversation.item.input_audio_transcription.completed" then .transcriptionCompleted
  else if t = "conversation.item.input_audio_transcription.delta" then .transcriptionDelta
  else if t = "response.function_call_arguments.delta" then .fcDelta
  else if t = "response.function_call_arguments.done" then .fcDone
  else if t = "response.output_item.added" then .itemAdded
  else if t = "response.created" then .responseCreated
  else if t = "response.done" then .responseDone
  else if t = "input_audio_buffer.speech_started" then .speechStarted
  else if t = "input_audio_buffer.speech_stopped" then .speechStopped
  else if t = "error" then .errorCase
  else if t = "rate_limits.updated" then .rateLimits
  else .other

/-- One iteration of OpenAIRealtimeSession.receive: dispatch on the type
field, returning the updated state and the events yielded.  The str(error)
fallback for an error object without a message key is modelled as the empty
string. -/
def oaiStep (s : OAIState) (m : OAIMsg) : OAIState × List ProviderEvent :=
  match oaiDispatch m.type with
  | .sessionLifecycle => (s, [])
  | .audioDelta =>
    (s, if m.delta.getD "" ≠ "" then [.audio (m.delta.getD "")] else [])
  | .transcriptDelta =>
    (s, if m.delta.getD "" ≠ "" then [.transcriptAgent (m.delta.getD "")] else [])
  | .transcriptionCompleted =>
    (s, if (m.transcript.getD "").trim ≠ "" then
          [.transcriptUser ((m.transcript.getD "").trim)] else [])
  | .transcriptionDelta => (s, [])
  | .fcDelta =>
    ({ s with current_fc_args := s.current_fc_args ++ m.delta.getD "" }, [])
  | .fcDone =>
    let args_str := m.argumentsField.getD s.current_fc_args
    let cid := match m.callIdField with
      | some c => some c
      | none => s.current_fc_call_id
    let nm := match m.nameField with
      | some n => some n
      | none => s.current_fc_name
    ({ s with current_fc_name := none, current_fc_args := "",
              current_fc_call_id := none, current_fc_item_id := none },
      [.toolCall nm (parseToolArgs args_str) cid])
  | .itemAdded =>
    (match m.item with
     | some it =>
       if it.itemType = some "function_call" then
         { s with current_fc_name := it.name, current_fc_call_id := it.call_id,
                  current_fc_item_id := it.id, current_fc_args := "" }
       else s
     | none => s, [])
  | .responseCreated => ({ s with in_response := true }, [])
  | .responseDone =>
    ({ s with in_response := false },
      if m.responseStatus.getD "" = "cancelled" then [.interrupted]
      else [.turnComplete])
  | .speechStarted =>
    (s, if s.in_response then [.interrupted] else [])
  | .speechStopped => (s, [])
  | .errorCase => (s, [.error (m.errorMessage.getD "")])
  | .rateLimits => (s, [])
  | .other => (s, [])

/-- OpenAIRealtimeSession.receive over a whole inbound message sequence. -/
def oaiRun (s : OAIState) : List OAIMsg → OAIState × List ProviderEvent
  | [] => (s, [])
  | m :: rest =>
    let p := oaiStep s m
    let q := oaiRun p.1 rest
    (q.1, p.2 ++ q.2)

/-- The outbound wire messages of OpenAIRealtimeSession. -/
inductive OAIWire
  | inputAudioAppend (audio : List Nat)
  | itemCreateUserText (text : String)
  | responseCreate
  | itemCreateImage (mime : String) (data : List Nat)
  | itemCreateFunctionOutput (call_id : String) (output : String)
deriving DecidableEq

/-- send_audio: early return when closed, else resample 16 kHz to 24 kHz and
append to the input audio buffer (base64 text encoding omitted, it is a
bijection on the bytes).  The private resampler of openai_rt.py is a
verbatim copy of resample_pcm16 from the audio module, so that definition
is reused here; a struct.error it raises propagates out of send_audio with
nothing written, and the closed check precedes the resampling. -/
def oai_send_audio (s : OAIState) (chunk : List Nat) : Except String (List OAIWire) :=
  if s.closed then .ok []
  else
    match resample_pcm16 chunk 16000 24000 with
    | .ok resampled => .ok [.inputAudioAppend resampled]
    | .error e => .error e

/-- send_text: early return when closed, else a user message item followed by
response.create. -/
def oai_send_text (s : OAIState) (text : String) : List OAIWire :=
  if s.closed then [] else [.itemCreateUserText text, .responseCreate]

/-- send_image: early return when closed, else one conversation item. -/
def oai_send_image (s : OAIState) (data : List Nat) (mime : String) : List OAIWire :=
  if s.closed then [] else [.itemCreateImage mime data]

/-- send_tool_result: early return when closed, else a function_call_output
item followed by response.create. -/
def oai_send_tool_result (s : OAIState) (tool_id _name result : String) : List OAIWire :=
  if s.closed then [] else [.itemCreateFunctionOutput tool_id result, .responseCreate]

/-- close: set the closed flag (the websocket close has no session state). -/
def oai_close (s : OAIState) : OAIState := { s with closed := true }

/-! ## ElevenLabs session (providers/elevenlabs.py, ElevenLabsSession) -/

structure ELMsg where
  type : String
  convId : Option String := none
  audioEventId : Option Int := none
  audioB64 : Option String := none
  userTranscript : Option String := none
  agentResponse : Option String := none
  correctedResponse : Option String := none
  interruptEventId : Option Int := none
  toolName : Option String := none
  toolParams : List (String × String) := []
  toolCallId : Option String := none
deriving DecidableEq

/-- The mutable state of ElevenLabsSession: conversation id, interruption
watermark, closed flag. -/
structure ELState where
  conversation_id : Option String
  last_interrupt_id : Int
  closed : Bool
deriving DecidableEq

def elInit : ELState := ⟨none, 0, false⟩

/-- The branches of the receive dispatch of ElevenLabsSession, one per
handled message type. -/
inductive ELCase
  | initMetadata
  | audioData
  | userTranscriptCase
  | agentResponseCase
  | agentCorrection
  | interruption
  | ping
  | clientToolCall
  | other
deriving DecidableEq

/-- The dispatch of ElevenLabsSession.receive on the type field, in source
order (the type strings are pairwise distinct). -/
def elDispatch (t : String) : ELCase :=
  if t = "conversation_initiation_metadata" then .initMetadata
  else if t = "audio" then .audioData
  else if t = "user_transcript" then .userTranscriptCase
  else if t = "agent_response" then .agentResponseCase
  else if t = "agent_response_correction" then .agentCorrection
  else if t = "interruption" then .interruption
  else if t = "ping" then .ping
  else if t = "client_tool_call" then .clientToolCall
  else .other

/-- One iteration of ElevenLabsSession.receive.  The ping branch only
schedules a deferred pong on a separate task, so it yields no event and
leaves the session state unchanged. -/
def elStep (s : ELState) (m : ELMsg) : ELState × List ProviderEvent :=
  match elDispatch m.type with
  | .initMetadata => ({ s with conversation_id := m.convId }, [])
  | .audioData =>
    if m.audioEventId.getD 0 ≤ s.last_interrupt_id then (s, [])
    else (s, if m.audioB64.getD "" ≠ "" then [.audio (m.audioB64.getD "")] else [])
  | .userTranscriptCase =>
    (s, if (m.userTranscript.getD "").trim ≠ "" then
          [.transcriptUser ((m.userTranscript.getD "").trim)] else [])
  | .agentResponseCase =>
    (s, if (m.agentResponse.getD "").trim ≠ "" then
          [.transcriptAgent ((m.agentResponse.getD "").trim), .turnComplete]
        else [])
  | .agentCorrection =>
    (s, if (m.correctedResponse.getD "").trim ≠ "" then
          [.transcriptAgent ("[corrected] " ++ (m.correctedResponse.getD "").trim)]
        else [])
  | .interruption =>
    ({ s with last_interrupt_id := m.interruptEventId.getD 0 }, [.interrupted])
  | .ping => (s, [])
  | .clientToolCall =>
    (s, [.toolCall m.toolName m.toolParams m.toolCallId])
  | .other => (s, [])

/-- ElevenLabsSession.receive over a whole inbound message sequence. -/
def elRun (s : ELState) : List ELMsg → ELState × List ProviderEvent
  | [] => (s, [])
  | m :: rest =>
    let p := elStep s m
    let q := elRun p.1 rest
    (q.1, p.2 ++ q.2)

/-- The outbound wire messages of ElevenLabsSession. -/
inductive ELWire
  | userAudioChunk (audio : List Nat)
  | userMessage (text : String)
  | clientToolResult (tool_call_id : String) (result : String)
deriving DecidableEq

/-- send_audio: early return when closed, else one user_audio_chunk. -/
def el_send_audio (s : ELState) (chunk : List Nat) : List ELWire :=
  if s.closed then [] else [.userAudioChunk chunk]

/-- send_text: early return when closed, else one user_message. -/
def el_send_text (s : ELState) (text : String) : List ELWire :=
  if s.closed then [] else [.userMessage text]

/-- send_image: vision is unsupported, the call is ignored unconditionally. -/
def el_send_image (_s : ELState) (_data : List Nat) (_mime : String) : List ELWire :=
  []

/-- send_tool_result: early return when closed, else one client_tool_result. -/
def el_send_tool_result (s : ELState) (tool_id _name result : String) : List ELWire :=
  if s.closed then [] else [.clientToolResult tool_id result]

/-- close: set the closed flag. -/
def el_close (s : ELState) : ELState := { s with closed := true }

/-! ## Provider registry and Twilio media-stream setup
(providers/init module and twilio_integration/webhooks.py) -/

/-- get_provider: KeyError (modelled as error) when the name is not
registered, else the registered provider. -/
def get_provider (registry : List String) (name : String) : Except String String :=
  if name ∈ registry then .ok name else .error ("Unknown provider " ++ name)

/-- What the setup phase of the media-stream handler did before handing over
to the bridge: the text frames it wrote to the client websocket, whether it
closed the websocket, and whether it reached bridge.run (which is where the
backend provider connection is opened). -/
structure MediaStreamOutcome where
  sent : List String
  closedWs : Bool
  backendConnected : Bool
deriving DecidableEq

/-- The setup phase of twilio_media_stream after the two initial frames are
read: a non-start second frame returns at once; a missing persona closes the
websocket and returns; an unknown provider name (KeyError from get_provider)
closes the websocket and returns; otherwise control reaches bridge.run.  The
first (connected) frame is only logged and does not influence the outcome. -/
def twilio_media_stream_setup (registry : List String) (startEvent : String)
    (providerName : String) (personaFound : Bool) : MediaStreamOutcome :=
  if startEvent ≠ "start" then ⟨[], false, false⟩
  else if ¬ personaFound then ⟨[], true, false⟩
  else
    match get_provider registry providerName with
    | .error _ => ⟨[], true, false⟩
    | .ok _ => ⟨[], false, true⟩

/-! ## Spec-side trackers used to state the temporal claims -/

/-- Spec-side gloss of a response being in progress: a response.created has
been seen and no response.done after it. -/
def responseInProgress (ms : List OAIMsg) : Bool :=
  ms.foldl (fun b m =>
    if m.type = "response.created" then true
    else if m.type = "response.done" then false else b) false

/-- Spec-side: the watermark announced by the most recent interruption
message of the sequence (0 when there is none), reading absent event ids
as 0 the way the handler does. -/
def lastInterruptWatermark (ms : List ELMsg) : Int :=
  ms.foldl (fun w m =>
    if m.type = "interruption" then m.interruptEventId.getD 0 else w) 0

/-- The item-added message announcing a function call with its name, call id
and item id. -/
def itemAddedMsg (name cid iid : String) : OAIMsg :=
  { type := "response.output_item.added",
    item := some { itemType := some "function_call", name := some name,
                   call_id := some cid, id := some iid } }

/-- A function-call argument delta message. -/
def fcDeltaMsg (d : String) : OAIMsg :=
  { type := "response.function_call_arguments.delta", delta := some d }

/-- The terminal function-call message with the arguments field (and the
name and call id fields) omitted. -/
def fcDoneNoArgsMsg : OAIMsg :=
  { type := "response.function_call_arguments.done" }

/-- Concatenation of a list of strings, the accumulated value of successive
argument deltas. -/
def concatStrs : List String → String
  | [] => ""
  | d :: rest => d ++ concatStrs rest

/-- The wire type string selecting each dispatch branch (the lifecycle
branch of the OpenAI dispatch matches two strings and is listed by its
first; unused for the results proved here). -/
def oaiCaseString : OAICase → String
  | .sessionLifecycle => "session.created"
  | .audioDelta => "response.output_audio.delta"
  | .transcriptDelta => "response.output_audio_transcript.delta"
  | .transcriptionCompleted => "conversation.item.input_audio_transcription.completed"
  | .transcriptionDelta => "conversation.item.input_audio_transcription.delta"
  | .fcDelta => "response.function_call_arguments.delta"
  | .fcDone => "response.function_call_arguments.done"
  | .itemAdded => "response.output_item.added"
  | .responseCreated => "response.created"
  | .responseDone => "response.done"
  | .speechStarted => "input_audio_buffer.speech_started"
  | .speechStopped => "input_audio_buffer.speech_stopped"
  | .errorCase => "error"
  | .rateLimits => "rate_limits.updated"
  | .other => ""

/-- The wire type string selecting each ElevenLabs dispatch branch. -/
def elCaseString : ELCase → String
  | .initMetadata => "conversation_initiation_metadata"
  | .audioData => "audio"
  | .userTranscriptCase => "user_transcript"
  | .agentResponseCase => "agent_response"
  | .agentCorrection => "agent_response_correction"
  | .interruption => "interruption"
  | .ping => "ping"
  | .clientToolCall => "client_tool_call"
  | .other => ""

/-! ## Helper lemmas: packing and the mu-law codec -/

lemma toSigned16_pack (v : Int) (h1 : -32768 ≤ v) (h2 : v < 32768) :
    toSigned16 ((v % 65536).toNat % 256 + 256 * ((v % 65536).toNat / 256)) = v := by
  rw [Nat.mod_add_div]
  unfold toSigned16
  have h3 : (0:Int) ≤ v % 65536 := by omega
  have h5 : ((v % 65536).toNat : Int) = v % 65536 := Int.toNat_of_nonneg h3
  split <;> omega

lemma muLawEncode_lt (s : Int) : muLawEncode s < 256 := by
  unfold muLawEncode
  dsimp only
  omega

set_option maxRecDepth 4000 in
lemma muLawDecode_range : ∀ b, b < 256 → -32768 ≤ muLawDecode b ∧ muLawDecode b < 32768 := by
  decide

lemma pcm16_to_mulaw_cons (v : Int) (rest : List Nat)
    (h1 : -32768 ≤ v) (h2 : v < 32768) :
    pcm16_to_mulaw (pack16 v ++ rest) = muLawEncode v :: pcm16_to_mulaw rest := by
  show pcm16_to_mulaw (_ :: _ :: rest) = _
  rw [pcm16_to_mulaw]
  rw [toSigned16_pack v h1 h2]

lemma unpackPCM16_cons (v : Int) (rest : List Nat)
    (h1 : -32768 ≤ v) (h2 : v < 32768) :
    unpackPCM16 (pack16 v ++ rest) = v :: unpackPCM16 rest := by
  show unpackPCM16 (_ :: _ :: rest) = _
  rw [unpackPCM16]
  rw [toSigned16_pack v h1 h2]

lemma roundtrip_core (x : List Int) (h : ∀ s ∈ x, -32768 ≤ s ∧ s < 32768) :
    mulaw_to_pcm16 (pcm16_to_mulaw (packPCM16 x)) =
      packPCM16 (x.map (fun s => muLawDecode (muLawEncode s))) := by
  induction x with
  | nil => rfl
  | cons a t ih =>
    have ha := h a (by simp)
    have ht : ∀ s ∈ t, -32768 ≤ s ∧ s < 32768 := fun s hs => h s (by simp [hs])
    show mulaw_to_pcm16 (pcm16_to_mulaw (pack16 a ++ packPCM16 t)) = _
    rw [pcm16_to_mulaw_cons a _ ha.1 ha.2]
    rw [mulaw_to_pcm16]
    rw [ih ht]
    rfl

lemma packPCM16_length (l : List Int) : (packPCM16 l).length = 2 * l.length := by
  induction l with
  | nil => rfl
  | cons a t ih =>
    show (pack16 a ++ packPCM16 t).length = 2 * (t.length + 1)
    simp [pack16, ih]
    omega

lemma unpack_packPCM16 (l : List Int) (h : ∀ s ∈ l, -32768 ≤ s ∧ s < 32768) :
    unpackPCM16 (packPCM16 l) = l := by
  induction l with
  | nil => rfl
  | cons a t ih =>
    have ha := h a (by simp)
    show unpackPCM16 (pack16 a ++ packPCM16 t) = a :: t
    rw [unpackPCM16_cons a _ ha.1 ha.2]
    rw [ih (fun s hs => h s (by simp [hs]))]

/-! ## Helper lemmas: the resampler -/

lemma out_len_eq (n r1 r2 : Nat) (h1 : 0 < r1) (h2 : 0 < r2) :
    (pyTrunc ((n : ℚ) / ((r1 : ℚ) / (r2 : ℚ)))).toNat = n * r2 / r1 := by
  have hq : ((n : ℚ) / ((r1 : ℚ) / (r2 : ℚ))) = ((n * r2 : ℕ) : ℚ) / ((r1 : ℕ) : ℚ) := by
    push_cast
    field_simp
  have hnn : (0:ℚ) ≤ (n : ℚ) / ((r1 : ℚ) / (r2 : ℚ)) := by positivity
  rw [pyTrunc, if_pos hnn, hq, Int.floor_toNat, Nat.floor_div_nat]
  norm_cast

lemma resample_length_general (data : List Nat) (r1 r2 : Nat) (hne : r1 ≠ r2)
    (h1 : 0 < r1) (h2 : 0 < r2) (hn : ¬ data.length / 2 = 0)
    (hexact : data.length = 2 * (data.length / 2)) :
    ∃ out, resample_pcm16 data r1 r2 = .ok out ∧
      out.length = 2 * (data.length / 2 * r2 / r1) := by
  simp only [resample_pcm16, if_neg hne, if_neg hn, if_neg (not_not_intro hexact)]
  refine ⟨_, rfl, ?_⟩
  rw [packPCM16_length]
  simp only [List.length_map, List.length_range]
  rw [out_len_eq _ _ _ h1 h2]

lemma unpack_append_odd : ∀ (data : List Nat), data.length % 2 = 0 →
    ∀ b, unpackPCM16 (data ++ [b]) = unpackPCM16 data
  | [], _, _ => rfl
  | [_], h, _ => by simp at h
  | x :: y :: rest, h, b => by
    have h2 : rest.length % 2 = 0 := by
      simp only [List.length_cons] at h
      omega
    show unpackPCM16 (x :: y :: (rest ++ [b])) = _
    simp only [unpackPCM16]
    rw [unpack_append_odd rest h2 b]

lemma pcm16_append_odd : ∀ (data : List Nat), data.length % 2 = 0 →
    ∀ b, pcm16_to_mulaw (data ++ [b]) = pcm16_to_mulaw data
  | [], _, _ => rfl
  | [_], h, _ => by simp at h
  | x :: y :: rest, h, b => by
    have h2 : rest.length % 2 = 0 := by
      simp only [List.length_cons] at h
      omega
    show pcm16_to_mulaw (x :: y :: (rest ++ [b])) = _
    simp only [pcm16_to_mulaw]
    rw [pcm16_append_odd rest h2 b]


/-- If the OpenAI dispatch lands in a single-string branch, the type
string is that string. -/
lemma oaiDispatch_string (t : String) (c : OAICase) (h : oaiDispatch t = c)
    (hoth : c ≠ .other) (hx0 : c ≠ .sessionLifecycle) :
    t = oaiCaseString c := by
  unfold oaiDispatch at h
  by_cases k0 : t = "session.created" ∨ t = "session.updated"
  · rw [if_pos k0] at h
    exact absurd h.symm hx0
  · rw [if_neg k0] at h
    by_cases k1 : t = "response.output_audio.delta"
    · rw [if_pos k1] at h
      cases h
      exact k1
    · rw [if_neg k1] at h
      by_cases k2 : t = "response.output_audio_transcript.delta"
      · rw [if_pos k2] at h
        cases h
        exact k2
      · rw [if_neg k2] at h
        by_cases k3 : t = "conversation.item.input_audio_transcription.completed"
        · rw [if_pos k3] at h
          cases h
          exact k3
        · rw [if_neg k3] at h
          by_cases k4 : t = "conversation.item.input_audio_transcription.delta"
          · rw [if_pos k4] at h
            cases h
            exact k4
          · rw [if_neg k4] at h
            by_cases k5 : t = "response.function_call_arguments.delta"
            · rw [if_pos k5] at h
              cases h
              exact k5
            · rw [if_neg k5] at h
              by_cases k6 : t = "response.function_call_arguments.done"
              · rw [if_pos k6] at h
                cases h
                exact k6
              · rw [if_neg k6] at h
                by_cases k7 : t = "response.output_item.added"
                · rw [if_pos k7] at h
                  cases h
                  exact k7
                · rw [if_neg k7] at h
                  by_cases k8 : t = "response.created"
                  · rw [if_pos k8] at h
                    cases h
                    exact k8
                  · rw [if_neg k8] at h
                    by_cases k9 : t = "response.done"
                    · rw [if_pos k9] at h
                      cases h
                      exact k9
                    · rw [if_neg k9] at h
                      by_cases k10 : t = "input_audio_buffer.speech_started"
                      · rw [if_pos k10] at h
                        cases h
                        exact k10
                      · rw [if_neg k10] at h
                        by_cases k11 : t = "input_audio_buffer.speech_stopped"
                        · rw [if_pos k11] at h
                          cases h
                          exact k11
                        · rw [if_neg k11] at h
                          by_cases k12 : t = "error"
                          · rw [if_pos k12] at h
                            cases h
                            exact k12
                          · rw [if_neg k12] at h
                            by_cases k13 : t = "rate_limits.updated"
                            · rw [if_pos k13] at h
                              cases h
                              exact k13
                            · rw [if_neg k13] at h
                              exact absurd h.symm hoth

/-- If the ElevenLabs dispatch lands in a named branch, the type string is
the string of that branch. -/
lemma elDispatch_string (t : String) (c : ELCase) (h : elDispatch t = c)
    (hoth : c ≠ .other)  :
    t = elCaseString c := by
  unfold elDispatch at h
  by_cases k0 : t = "conversation_initiation_metadata"
  · rw [if_pos k0] at h
    cases h
    exact k0
  · rw [if_neg k0] at h
    by_cases k1 : t = "audio"
    · rw [if_pos k1] at h
      cases h
      exact k1
    · rw [if_neg k1] at h
      by_cases k2 : t = "user_transcript"
      · rw [if_pos k2] at h
        cases h
        exact k2
      · rw [if_neg k2] at h
        by_cases k3 : t = "agent_response"
        · rw [if_pos k3] at h
          cases h
          exact k3
        · rw [if_neg k3] at h
          by_cases k4 : t = "agent_response_correction"
          · rw [if_pos k4] at h
            cases h
            exact k4
          · rw [if_neg k4] at h
            by_cases k5 : t = "interruption"
            · rw [if_pos k5] at h
              cases h
              exact k5
            · rw [if_neg k5] at h
              by_cases k6 : t = "ping"
              · rw [if_pos k6] at h
                cases h
                exact k6
              · rw [if_neg k6] at h
                by_cases k7 : t = "client_tool_call"
                · rw [if_pos k7] at h
                  cases h
                  exact k7
                · rw [if_neg k7] at h
                  exact absurd h.symm hoth

/-! ## Helper lemmas: step characterizations -/

lemma el_watermark_step (s : ELState) (m : ELMsg) :
    ((elStep s m).1).last_interrupt_id =
      if m.type = "interruption" then m.interruptEventId.getD 0
      else s.last_interrupt_id := by
  cases hd : elDispatch m.type
  case interruption =>
    have ht : m.type = "interruption" := elDispatch_string m.type _ hd (by decide)
    rw [if_pos ht]
    simp only [elStep, hd]
  all_goals {
    have hne : ¬ m.type = "interruption" := by
      intro hm
      rw [hm] at hd
      exact absurd ((rfl : elDispatch "interruption" = ELCase.interruption).symm.trans hd)
        (by decide)
    rw [if_neg hne]
    simp only [elStep, hd]
    all_goals first | rfl | (split <;> rfl)
  }

lemma elRun_watermark : ∀ (ms : List ELMsg) (s : ELState),
    ((elRun s ms).1).last_interrupt_id =
      ms.foldl (fun w m =>
        if m.type = "interruption" then m.interruptEventId.getD 0 else w)
        s.last_interrupt_id := by
  intro ms
  induction ms with
  | nil => intro s; rfl
  | cons m rest ih =>
    intro s
    show ((elRun (elStep s m).1 rest).1).last_interrupt_id = _
    rw [ih, List.foldl_cons]
    congr 1
    exact el_watermark_step s m

lemma oai_in_response_step (s : OAIState) (m : OAIMsg) :
    ((oaiStep s m).1).in_response =
      if m.type = "response.created" then true
      else if m.type = "response.done" then false
      else s.in_response := by
  cases hd : oaiDispatch m.type
  case responseCreated =>
    have ht : m.type = "response.created" :=
      oaiDispatch_string m.type _ hd (by decide) (by decide)
    rw [if_pos ht]
    simp only [oaiStep, hd]
  case responseDone =>
    have ht : m.type = "response.done" :=
      oaiDispatch_string m.type _ hd (by decide) (by decide)
    have hne : ¬ m.type = "response.created" := by
      rw [ht]
      decide
    rw [if_neg hne, if_pos ht]
    simp only [oaiStep, hd]
  all_goals {
    have hne1 : ¬ m.type = "response.created" := by
      intro hm
      rw [hm] at hd
      exact absurd ((rfl : oaiDispatch "response.created" = OAICase.responseCreated).symm.trans hd)
        (by decide)
    have hne2 : ¬ m.type = "response.done" := by
      intro hm
      rw [hm] at hd
      exact absurd ((rfl : oaiDispatch "response.done" = OAICase.responseDone).symm.trans hd)
        (by decide)
    rw [if_neg hne1, if_neg hne2]
    simp only [oaiStep, hd]
    all_goals first | rfl | (split <;> first | rfl | (split <;> rfl))
  }

lemma oaiRun_in_response : ∀ (ms : List OAIMsg) (s : OAIState),
    ((oaiRun s ms).1).in_response =
      ms.foldl (fun b m =>
        if m.type = "response.created" then true
        else if m.type = "response.done" then false else b) s.in_response := by
  intro ms
  induction ms with
  | nil => intro s; rfl
  | cons m rest ih =>
    intro s
    show ((oaiRun (oaiStep s m).1 rest).1).in_response = _
    rw [ih, List.foldl_cons]
    congr 1
    exact oai_in_response_step s m

/-! ## Run lemmas for the OpenAI session -/

lemma oaiRun_cons (s : OAIState) (m : OAIMsg) (l : List OAIMsg) :
    oaiRun s (m :: l) =
      ((oaiRun (oaiStep s m).1 l).1,
        (oaiStep s m).2 ++ (oaiRun (oaiStep s m).1 l).2) := rfl

lemma oaiStep_itemAdded (s : OAIState) (nm cid iid : String) :
    oaiStep s (itemAddedMsg nm cid iid) =
      ({ s with current_fc_name := some nm, current_fc_call_id := some cid,
                current_fc_item_id := some iid, current_fc_args := "" }, []) := rfl

lemma oaiStep_fcDelta (s : OAIState) (d : String) :
    oaiStep s (fcDeltaMsg d) =
      ({ s with current_fc_args := s.current_fc_args ++ d }, []) := rfl

lemma oaiStep_fcDone (s : OAIState) :
    oaiStep s fcDoneNoArgsMsg =
      ({ s with current_fc_name := none, current_fc_args := "",
                current_fc_call_id := none, current_fc_item_id := none },
        [ProviderEvent.toolCall s.current_fc_name
          (parseToolArgs s.current_fc_args) s.current_fc_call_id]) := rfl

lemma oaiRun_deltas_done (ds : List String) : ∀ (s : OAIState),
    oaiRun s (ds.map fcDeltaMsg ++ [fcDoneNoArgsMsg]) =
      ({ s with current_fc_name := none, current_fc_args := "",
                current_fc_call_id := none, current_fc_item_id := none },
        [ProviderEvent.toolCall s.current_fc_name
          (parseToolArgs (s.current_fc_args ++ concatStrs ds))
          s.current_fc_call_id]) := by
  induction ds with
  | nil =>
    intro s
    show oaiRun s [fcDoneNoArgsMsg] = _
    rw [oaiRun_cons, oaiStep_fcDone, concatStrs, String.append_empty]
    rfl
  | cons d rest ih =>
    intro s
    show oaiRun s (fcDeltaMsg d :: (rest.map fcDeltaMsg ++ [fcDoneNoArgsMsg])) = _
    rw [oaiRun_cons, oaiStep_fcDelta, ih, concatStrs, ← String.append_assoc]
    rfl

lemma oaiRun_toolcall_seq (s : OAIState) (nm cid iid : String) (ds : List String) :
    oaiRun s (itemAddedMsg nm cid iid :: (ds.map fcDeltaMsg ++ [fcDoneNoArgsMsg])) =
      ({ s with current_fc_name := none, current_fc_args := "",
                current_fc_call_id := none, current_fc_item_id := none },
        [ProviderEvent.toolCall (some nm) (parseToolArgs (concatStrs ds))
          (some cid)]) := by
  rw [oaiRun_cons, oaiStep_itemAdded, oaiRun_deltas_done]
  rfl

/-! ## The claims -/

/-- Claim C1: when a function call is announced by response.output_item.added
(carrying name and call id), its argument text arrives as successive
response.function_call_arguments.delta messages, and the terminal
response.function_call_arguments.done message omits the arguments field,
the receive loop yields exactly one ToolCall event whose arguments are the
JSON parse of the concatenated delta fragments held in the accumulator, and
the accumulator is cleared afterwards.  The final conjunct instantiates the
example of the spec: deltas carrying the two halves of a one-key object
yield tool arguments [(loc, NY)]. -/
theorem claim_C1_toolcall_accumulation (s : OAIState) (nm cid iid : String)
    (ds : List String) :
    (oaiRun s (itemAddedMsg nm cid iid :: (ds.map fcDeltaMsg ++ [fcDoneNoArgsMsg]))).2 =
        [ProviderEvent.toolCall (some nm) (parseToolArgs (concatStrs ds)) (some cid)] ∧
    (oaiRun s (itemAddedMsg nm cid iid :: (ds.map fcDeltaMsg ++ [fcDoneNoArgsMsg]))).1 =
        { s with current_fc_name := none, current_fc_args := "",
                 current_fc_call_id := none, current_fc_item_id := none } ∧
    (oaiRun oaiInit [itemAddedMsg "get_weather" "call_1" "item_1",
        fcDeltaMsg "\x7b\"lo", fcDeltaMsg "c\":\"NY\"\x7d", fcDoneNoArgsMsg]).2 =
      [ProviderEvent.toolCall (some "get_weather") [("loc", "NY")] (some "call_1")] := by
  refine ⟨?_, ?_, ?_⟩
  · rw [oaiRun_toolcall_seq]
  · rw [oaiRun_toolcall_seq]
  · decide

/-- Claim C2: in the ElevenLabs receive loop, an audio message whose event id
is at or below the interruption watermark yields no event and leaves the
state unchanged; an audio message above the watermark with non-empty base64
audio yields exactly one Audio event; and after any message sequence the
watermark equals the event id announced by the most recent interruption
message. -/
theorem claim_C2_stale_audio_watermark :
    (∀ (s : ELState) (m : ELMsg), m.type = "audio" →
        m.audioEventId.getD 0 ≤ s.last_interrupt_id →
        elStep s m = (s, [])) ∧
    (∀ (s : ELState) (m : ELMsg), m.type = "audio" →
        s.last_interrupt_id < m.audioEventId.getD 0 →
        m.audioB64.getD "" ≠ "" →
        elStep s m = (s, [ProviderEvent.audio (m.audioB64.getD "")])) ∧
    (∀ ms : List ELMsg,
        ((elRun elInit ms).1).last_interrupt_id = lastInterruptWatermark ms) := by
  refine ⟨?_, ?_, ?_⟩
  · intro s m ht hle
    have hd : elDispatch m.type = .audioData := by
      rw [ht]
      rfl
    simp only [elStep, hd, if_pos hle]
  · intro s m ht hlt hb
    have hd : elDispatch m.type = .audioData := by
      rw [ht]
      rfl
    simp only [elStep, hd, if_neg (not_le.2 hlt), if_pos hb]
  · intro ms
    rw [elRun_watermark]
    rfl

/-- Witness for claim C2 at a concrete state and concrete audio messages:
with the watermark at 5, an audio message tagged 3 is suppressed and one
tagged 9 with non-empty audio yields exactly one Audio event. -/
theorem claim_C2_witness :
    (({ type := "audio", audioEventId := some 3, audioB64 := some "QUJD" } :
        ELMsg).audioEventId.getD 0 ≤ (5 : Int)) ∧
    ((5 : Int) < ({ type := "audio", audioEventId := some 9, audioB64 := some "QUJD" } :
        ELMsg).audioEventId.getD 0) ∧
    elStep { conversation_id := none, last_interrupt_id := 5, closed := false }
        { type := "audio", audioEventId := some 3, audioB64 := some "QUJD" } =
      ({ conversation_id := none, last_interrupt_id := 5, closed := false }, []) ∧
    elStep { conversation_id := none, last_interrupt_id := 5, closed := false }
        { type := "audio", audioEventId := some 9, audioB64 := some "QUJD" } =
      ({ conversation_id := none, last_interrupt_id := 5, closed := false },
        [ProviderEvent.audio "QUJD"]) := by
  refine ⟨by decide, by decide, ?_, ?_⟩
  · exact claim_C2_stale_audio_watermark.1 _ _ rfl (by decide)
  · exact claim_C2_stale_audio_watermark.2.1 _ _ rfl (by decide) (by decide)

/-- Claim C3: the OpenAI receive loop yields Interrupted exactly when a
speech-started message arrives while a response is in progress or a
response.done message carries status cancelled; a response.done with any
other status yields TurnComplete instead; and the in-response flag after a
message sequence equals the spec-side tracker (set by response.created,
cleared by response.done). -/
theorem claim_C3_interrupted_exactly :
    (∀ (s : OAIState) (m : OAIMsg),
        ProviderEvent.interrupted ∈ (oaiStep s m).2 ↔
          ((m.type = "input_audio_buffer.speech_started" ∧ s.in_response = true) ∨
           (m.type = "response.done" ∧ m.responseStatus.getD "" = "cancelled"))) ∧
    (∀ (s : OAIState) (m : OAIMsg), m.type = "response.done" →
        m.responseStatus.getD "" ≠ "cancelled" →
        (oaiStep s m).2 = [ProviderEvent.turnComplete]) ∧
    (∀ ms : List OAIMsg,
        ((oaiRun oaiInit ms).1).in_response = responseInProgress ms) := by
  refine ⟨?_, ?_, ?_⟩
  · intro s m
    cases hd : oaiDispatch m.type
    case speechStarted =>
      have ht : m.type = "input_audio_buffer.speech_started" :=
        oaiDispatch_string m.type _ hd (by decide) (by decide)
      have hne : ¬ m.type = "response.done" := by
        rw [ht]
        decide
      simp only [oaiStep, hd]
      by_cases hr : s.in_response
      · simp [hr, ht, hne]
      · simp [hr, ht, hne]
    case responseDone =>
      have ht : m.type = "response.done" :=
        oaiDispatch_string m.type _ hd (by decide) (by decide)
      have hne : ¬ m.type = "input_audio_buffer.speech_started" := by
        rw [ht]
        decide
      simp only [oaiStep, hd]
      by_cases hc : m.responseStatus.getD "" = "cancelled"
      · simp [hc, ht, hne]
      · simp [hc, ht, hne]
    all_goals {
      have hne1 : ¬ m.type = "input_audio_buffer.speech_started" := by
        intro hm
        rw [hm] at hd
        exact absurd
          ((rfl : oaiDispatch "input_audio_buffer.speech_started" =
              OAICase.speechStarted).symm.trans hd)
          (by decide)
      have hne2 : ¬ m.type = "response.done" := by
        intro hm
        rw [hm] at hd
        exact absurd
          ((rfl : oaiDispatch "response.done" = OAICase.responseDone).symm.trans hd)
          (by decide)
      simp only [oaiStep, hd, hne1, hne2, false_and, or_self, iff_false]
      all_goals simp
    }
  · intro s m ht hc
    have hd : oaiDispatch m.type = .responseDone := by
      rw [ht]
      rfl
    simp only [oaiStep, hd, if_neg hc]
  · intro ms
    rw [oaiRun_in_response]
    rfl

/-- Witness for claim C3: a concrete response.done with status completed
yields TurnComplete. -/
theorem claim_C3_witness :
    (({ type := "response.done", responseStatus := some "completed" } :
        OAIMsg).responseStatus.getD "" ≠ "cancelled") ∧
    (oaiStep oaiInit { type := "response.done", responseStatus := some "completed" }).2 =
      [ProviderEvent.turnComplete] := by
  refine ⟨by decide, ?_⟩
  exact claim_C3_interrupted_exactly.2.1 oaiInit _ rfl (by decide)

/-- Claim C4: the mu-law round trip preserves the sample count (decoding
doubles the byte count the encoder halved) and reconstructs each sample as
the decode-table value of its encoding — the table-value comparison the
spec asks for, not bit-exact equality with the input — and the encoder
saturates at 32635 before biasing, so the extreme inputs encode like the
clip value. -/
theorem claim_C4_mulaw_roundtrip (x : List Int)
    (h : ∀ s ∈ x, -32768 ≤ s ∧ s < 32768) :
    (mulaw_to_pcm16 (pcm16_to_mulaw (packPCM16 x))).length = 2 * x.length ∧
    unpackPCM16 (mulaw_to_pcm16 (pcm16_to_mulaw (packPCM16 x))) =
      x.map (fun s => muLawDecode (muLawEncode s)) ∧
    muLawEncode 32767 = muLawEncode 32635 ∧
    muLawEncode (-32768) = muLawEncode (-32635) := by
  have hcore := roundtrip_core x h
  have hrange : ∀ s ∈ x.map (fun s => muLawDecode (muLawEncode s)),
      -32768 ≤ s ∧ s < 32768 := by
    intro s hs
    rcases List.mem_map.1 hs with ⟨a, _, rfl⟩
    exact muLawDecode_range _ (muLawEncode_lt a)
  refine ⟨?_, ?_, by decide, by decide⟩
  · rw [hcore, packPCM16_length, List.length_map]
  · rw [hcore, unpack_packPCM16 _ hrange]

/-- Witness for claim C4 on the concrete sample list [0, 1000, -32768, 32767]. -/
theorem claim_C4_witness :
    (∀ s ∈ ([0, 1000, -32768, 32767] : List Int), -32768 ≤ s ∧ s < 32768) ∧
    ((mulaw_to_pcm16 (pcm16_to_mulaw (packPCM16 [0, 1000, -32768, 32767]))).length =
        2 * ([0, 1000, -32768, 32767] : List Int).length ∧
      unpackPCM16 (mulaw_to_pcm16 (pcm16_to_mulaw (packPCM16 [0, 1000, -32768, 32767]))) =
        ([0, 1000, -32768, 32767] : List Int).map (fun s => muLawDecode (muLawEncode s)) ∧
      muLawEncode 32767 = muLawEncode 32635 ∧
      muLawEncode (-32768) = muLawEncode (-32635)) :=
  ⟨by decide, claim_C4_mulaw_roundtrip _ (by decide)⟩

/-- Claim C5: for the rate pairs (8000,16000), (16000,24000) and (24000,8000)
and any PCM16 buffer — a whole number of 16-bit samples, hence an
even-length byte string — holding at least one full sample, the resampling
succeeds and the output holds exactly floor(n * toRate / fromRate) samples,
that is 2 * (n * r2 / r1) bytes for n input samples.  Odd-length byte
strings are malformed rather than PCM16 buffers; on them this code path of
the source raises struct.error, which claim C6 records. -/
theorem claim_C5_resample_length (data : List Nat) (r1 r2 : Nat)
    (hp : (r1, r2) = (8000, 16000) ∨ (r1, r2) = (16000, 24000) ∨
      (r1, r2) = (24000, 8000))
    (hn : 1 ≤ data.length / 2) (heven : data.length % 2 = 0) :
    ∃ out, resample_pcm16 data r1 r2 = .ok out ∧
      out.length = 2 * (data.length / 2 * r2 / r1) := by
  have hn0 : ¬ data.length / 2 = 0 := by omega
  have hexact : data.length = 2 * (data.length / 2) := by omega
  rcases hp with h | h | h <;>
    all_goals {
      injection h with h1 h2
      subst h1
      subst h2
      exact resample_length_general data _ _ (by decide) (by decide) (by decide)
        hn0 hexact
    }

/-- Witness for claim C5: three samples at 16 kHz resample to four samples
(eight bytes) at 24 kHz. -/
theorem claim_C5_witness :
    (((16000, 24000) : Nat × Nat) = (8000, 16000) ∨
      ((16000, 24000) : Nat × Nat) = (16000, 24000) ∨
      ((16000, 24000) : Nat × Nat) = (24000, 8000)) ∧
    1 ≤ ([1, 0, 2, 0, 3, 0] : List Nat).length / 2 ∧
    ([1, 0, 2, 0, 3, 0] : List Nat).length % 2 = 0 ∧
    (∃ out, resample_pcm16 [1, 0, 2, 0, 3, 0] 16000 24000 = .ok out ∧
      out.length = 2 * (([1, 0, 2, 0, 3, 0] : List Nat).length / 2 * 24000 / 16000)) := by
  refine ⟨by decide, by decide, by decide, ?_⟩
  exact claim_C5_resample_length [1, 0, 2, 0, 3, 0] 16000 24000
    (by decide) (by decide) (by decide)

/-- Counterexample for claim C6 as stated: resample_pcm16 neither always
returns a result nor treats a trailing odd byte as absent.  With equal
rates the identity branch returns the malformed buffer unchanged, with
differing rates a buffer holding no full sample is returned unchanged as
well — both outputs contain the trailing byte — and on the interpolation
path the whole-buffer struct.unpack raises struct.error for the odd-length
buffer instead of truncating it. -/
theorem claim_C6_counterexample :
    resample_pcm16 [0, 0, 7] 8000 8000 = .ok [0, 0, 7] ∧
    resample_pcm16 [7] 8000 16000 = .ok [7] ∧
    resample_pcm16 [0, 0, 7] 8000 16000 = .error "struct.error" := by
  refine ⟨rfl, rfl, rfl⟩

/-- Claim C6 as amended: mulaw_to_pcm16 and pcm16_to_mulaw are total, and
pcm16_to_mulaw always drops a trailing odd byte (its per-sample
struct.unpack_from loop never reads it).  resample_pcm16 never truncates:
when the rates differ and the buffer holds at least one full sample, an
odd-length buffer makes its whole-buffer struct.unpack raise struct.error
(the error value here); when the rates differ but no full sample is
present, the buffer is returned unchanged, trailing byte included (as it
also is on the equal-rates path, claim C9). -/
theorem claim_C6_truncation_amended :
    (∀ (data : List Nat) (b : Nat), data.length % 2 = 0 →
        pcm16_to_mulaw (data ++ [b]) = pcm16_to_mulaw data) ∧
    (∀ (data : List Nat) (b r1 r2 : Nat), r1 ≠ r2 → data.length % 2 = 0 →
        2 ≤ data.length →
        resample_pcm16 (data ++ [b]) r1 r2 = .error "struct.error") ∧
    (∀ (b r1 r2 : Nat), r1 ≠ r2 → resample_pcm16 [b] r1 r2 = .ok [b]) := by
  refine ⟨fun data b h => pcm16_append_odd data h b, ?_, ?_⟩
  · intro data b r1 r2 hne heven hlen
    have hlen1 : (data ++ [b]).length = data.length + 1 := by
      simp only [List.length_append, List.length_cons, List.length_nil]
    have hn : ¬ (data ++ [b]).length / 2 = 0 := by
      rw [hlen1]
      omega
    have hodd : (data ++ [b]).length ≠ 2 * ((data ++ [b]).length / 2) := by
      rw [hlen1]
      omega
    simp only [resample_pcm16, if_neg hne, if_neg hn, if_pos hodd]
  · intro b r1 r2 hne
    simp [resample_pcm16, hne]

/-- Witness for claim C6 as amended, on a concrete two-sample buffer with a
trailing ninth byte and on a single stray byte. -/
theorem claim_C6_witness :
    (([1, 0, 2, 0] : List Nat).length % 2 = 0) ∧
    ((8000 : Nat) ≠ 16000) ∧
    (2 ≤ ([1, 0, 2, 0] : List Nat).length) ∧
    pcm16_to_mulaw ([1, 0, 2, 0] ++ [9]) = pcm16_to_mulaw [1, 0, 2, 0] ∧
    resample_pcm16 ([1, 0, 2, 0] ++ [9]) 8000 16000 = .error "struct.error" ∧
    resample_pcm16 [9] 8000 16000 = .ok [9] := by
  refine ⟨by decide, by decide, by decide, ?_, ?_, ?_⟩
  · exact claim_C6_truncation_amended.1 [1, 0, 2, 0] 9 (by decide)
  · exact claim_C6_truncation_amended.2.1 [1, 0, 2, 0] 9 8000 16000
      (by decide) (by decide) (by decide)
  · exact claim_C6_truncation_amended.2.2 9 8000 16000 (by decide)

/-- Counterexample for claim C7 as stated: with a registry holding only
gemini, a session naming the unknown provider bogus closes the websocket
without opening a backend connection, but no message at all — in particular
no error frame — is sent to the client. -/
theorem claim_C7_counterexample :
    (twilio_media_stream_setup ["gemini"] "start" "bogus" true).sent = [] ∧
    (twilio_media_stream_setup ["gemini"] "start" "bogus" true).closedWs = true ∧
    (twilio_media_stream_setup ["gemini"] "start" "bogus" true).backendConnected = false := by
  refine ⟨rfl, rfl, rfl⟩

/-- Claim C7 as amended: an unrecognized provider name makes the handler
close the session immediately and open no backend connection, but it sends
no error frame to the client (the failure is only logged). -/
theorem claim_C7_unknown_provider_amended (registry : List String) (nm : String)
    (personaFound : Bool) (h : nm ∉ registry) (hp : personaFound = true) :
    twilio_media_stream_setup registry "start" nm personaFound =
      ⟨[], true, false⟩ := by
  subst hp
  simp [twilio_media_stream_setup, get_provider, h]

/-- Witness for claim C7 as amended, with a three-provider registry and the
unknown name bogus. -/
theorem claim_C7_witness :
    ("bogus" ∉ (["gemini", "openai", "elevenlabs"] : List String)) ∧
    twilio_media_stream_setup ["gemini", "openai", "elevenlabs"] "start" "bogus" true =
      ⟨[], true, false⟩ := by
  refine ⟨by decide, ?_⟩
  exact claim_C7_unknown_provider_amended _ _ _ (by decide) rfl

/-- Counterexample for claim C8 as stated: the watermark is assigned, not
maxed, so an interruption carrying a smaller event id lowers it — after
interruptions tagged 5 and then 3 the watermark is 3, below its previous
value 5. -/
theorem claim_C8_counterexample :
    ((elStep elInit { type := "interruption", interruptEventId := some 5 }).1).last_interrupt_id = 5 ∧
    ((elStep (elStep elInit { type := "interruption", interruptEventId := some 5 }).1
        { type := "interruption", interruptEventId := some 3 }).1).last_interrupt_id = 3 ∧
    ¬ ((5 : Int) ≤ 3) := by
  refine ⟨by decide, by decide, by decide⟩

/-- Claim C8 as amended: the watermark changes only on interruption
messages, where it is assigned that message event id; it is nondecreasing
provided each interruption id is at least the current watermark (which the
backend contract promises via monotonic event ids), and it never changes on
any other message. -/
theorem claim_C8_watermark_amended :
    (∀ (s : ELState) (m : ELMsg),
        ((elStep s m).1).last_interrupt_id =
          if m.type = "interruption" then m.interruptEventId.getD 0
          else s.last_interrupt_id) ∧
    (∀ (s : ELState) (m : ELMsg),
        (m.type = "interruption" → s.last_interrupt_id ≤ m.interruptEventId.getD 0) →
        s.last_interrupt_id ≤ ((elStep s m).1).last_interrupt_id) := by
  constructor
  · exact el_watermark_step
  · intro s m hmono
    rw [el_watermark_step]
    split_ifs with h
    · exact hmono h
    · exact le_refl _

/-- Witness for claim C8 as amended: from watermark 2, an interruption
tagged 7 leaves the watermark at least 2. -/
theorem claim_C8_witness :
    (({ type := "interruption", interruptEventId := some 7 } : ELMsg).type = "interruption" →
      (2 : Int) ≤ ({ type := "interruption", interruptEventId := some 7 } :
        ELMsg).interruptEventId.getD 0) ∧
    (2 : Int) ≤ ((elStep { conversation_id := none, last_interrupt_id := 2, closed := false }
        { type := "interruption", interruptEventId := some 7 }).1).last_interrupt_id := by
  refine ⟨fun _ => by decide, ?_⟩
  exact claim_C8_watermark_amended.2 _ _ (fun _ => by decide)

/-- Claim C9: resampling at equal rates succeeds and returns the buffer
unchanged, for every byte string and every rate — the identity branch
returns before any unpack. -/
theorem claim_C9_resample_identity (data : List Nat) (r : Nat) :
    resample_pcm16 data r r = .ok data := by
  simp [resample_pcm16]

/-- Claim C10: once close has set the closed flag, every send method of both
sessions writes nothing to the backend websocket (the ElevenLabs send_image
writes nothing in any case; the closed check of send_audio precedes its
resampling, so it returns successfully with no writes). -/
theorem claim_C10_closed_sends_nothing :
    (∀ (s : OAIState) (chunk img : List Nat) (text mime tid nm result : String),
        oai_send_audio (oai_close s) chunk = .ok [] ∧
        oai_send_text (oai_close s) text = [] ∧
        oai_send_image (oai_close s) img mime = [] ∧
        oai_send_tool_result (oai_close s) tid nm result = []) ∧
    (∀ (t : ELState) (chunk img : List Nat) (text mime tid nm result : String),
        el_send_audio (el_close t) chunk = [] ∧
        el_send_text (el_close t) text = [] ∧
        el_send_image (el_close t) img mime = [] ∧
        el_send_tool_result (el_close t) tid nm result = []) := by
  constructor
  · intro s chunk img text mime tid nm result
    exact ⟨rfl, rfl, rfl, rfl⟩
  · intro t chunk img text mime tid nm result
    exact ⟨rfl, rfl, rfl, rfl⟩
